import Mathlib

/-!
Shallow embedding of `src/dispatcher/binder.js` (the chimee event Binder):
the event-descriptor resolver, the Binder's relay-lifecycle state machine,
emission validation, the pending-event queue and the pointer-containment
tracker, together with theorems checking the specification's claims.

Handler functions (JS closures) are modelled by identity tokens (`Nat`);
a raw handler argument is `Option Nat`, where `none` models a value that
is not a function. Physical listener attachments are explicit lists keyed
by (node, event name, function identity), matching DOM semantics where
add/remove are keyed by function identity and double-add is a no-op.
-/

/-- The closed enumeration of binder target kinds (`binderTarget` in the source). -/
inductive binderTarget
  | kernel
  | container
  | wrapper
  | video
  | videoDom
  | plugin
  | esFullscreen
deriving DecidableEq, Repr

/-- Event stages (`eventStage` in the source): before / after / main / `_` (private). -/
inductive eventStage
  | before
  | after
  | main
  | underscore
deriving DecidableEq, Repr

/-- Boolean prefix test on strings, modelling JS `String.prototype.match(/^pat/)`. -/
def strStarts (p s : String) : Bool := p.data.isPrefixOf s.data

/-- Drop the first `k` characters, modelling `String.prototype.replace(/^pat/, '')`
when the pattern is known to match characters of fixed length `k`. -/
def strDropN (s : String) (k : Nat) : String := ⟨s.data.drop k⟩

/-- Modelled from the spec: `camelize` from `chimee-helper` (not in `src/`):
camel-cases the name; separator runs followed by a letter are removed and the
following letter upper-cased, except that the match at position 0 lower-cases
its letter. -/
def camelizeRest : Bool → List Char → List Char
  | _, [] => []
  | afterSep, c :: cs =>
    if c.isAlpha then (if afterSep then c.toUpper else c) :: camelizeRest false cs
    else if cs.any (fun d => d.isAlpha) then camelizeRest true cs
    else c :: cs

/-- Modelled from the spec: start-of-string case of `camelize` — the first letter
(after any leading separators) is lower-cased. -/
def camelizeStart : List Char → List Char
  | [] => []
  | c :: cs =>
    if c.isAlpha then c.toLower :: camelizeRest false cs
    else if cs.any (fun d => d.isAlpha) then camelizeStart cs
    else c :: cs

/-- Modelled from the spec: `camelize` from `chimee-helper` (not in `src/`). -/
def camelize (s : String) : String := ⟨camelizeStart s.data⟩

/-- The stage-prefix pattern `/^(before|after|_)/` (`secondaryReg` in the source),
as a Boolean test. -/
def secondaryTest (name : String) : Bool :=
  strStarts "before" name || strStarts "after" name || strStarts "_" name

/-- `getEventTargetByOldLogic`: legacy `c_`/`w_` prefix translation and the bare
`"error"` special case. Returns `none` where the JS returns `false`. -/
def getEventTargetByOldLogic (oldName : String) : Option (String × binderTarget) :=
  if strStarts "c_" oldName || strStarts "w_" oldName then
    some (strDropN oldName 2, if strStarts "c_" oldName then .container else .wrapper)
  else if oldName == "error" then
    some ("error", .kernel)
  else
    none

/-- Number of deprecation warnings logged by one `getEventTargetByOldLogic` call
(the warning is emitted only in the legacy-prefix branch, in non-production mode). -/
def getEventTargetByOldLogicWarns (oldName : String) : Nat :=
  if strStarts "c_" oldName || strStarts "w_" oldName then 1 else 0

/-- `getEventStage`: extract the stage prefix from the name; when a prefix matches,
the remainder is camel-cased. Returns `(stage, name)`. -/
def getEventStage (name : String) : eventStage × String :=
  if strStarts "before" name then (.before, camelize (strDropN name 6))
  else if strStarts "after" name then (.after, camelize (strDropN name 5))
  else if strStarts "_" name then (.underscore, camelize (strDropN name 1))
  else (.main, name)

/-- Modelled from the spec: `videoEvents` membership table from `helper/const`
(not in `src/`). -/
def videoEvents : List String := ["play", "pause", "playing", "seeking", "seeked"]

/-- Modelled from the spec: `kernelEvents` membership table from `helper/const`
(not in `src/`). -/
def kernelEvents : List String := ["error"]

/-- Modelled from the spec: `domEvents` membership table from `helper/const`
(not in `src/`). -/
def domEvents : List String := ["click", "dblclick", "mouseenter", "mouseleave", "mousemove"]

/-- Modelled from the spec: `esFullscreenEvents` membership table from
`helper/const` (not in `src/`). -/
def esFullscreenEvents : List String := ["fullscreenchange"]

/-- Modelled from the spec: `passiveEvents` list from `helper/const` (not in `src/`). -/
def passiveEvents : List String := ["touchmove", "touchstart", "wheel", "mousewheel"]

/-- Modelled from the spec: `mustListenVideoDomEvents` from `helper/const`
(not in `src/`): the always-on pointer-transition names. -/
def mustListenVideoDomEvents : List String := ["mouseenter", "mouseleave"]

/-- `getEventTargetByEventName`: infer the target from the membership tables,
checked in fixed priority order, defaulting to `plugin`. -/
def getEventTargetByEventName (name : String) : binderTarget :=
  if videoEvents.contains name then .video
  else if kernelEvents.contains name then .kernel
  else if domEvents.contains name then .videoDom
  else if esFullscreenEvents.contains name then .esFullscreen
  else .plugin

/-- A raw event descriptor as supplied by callers (`rawEventInfo` in the source):
target and stage optional, `fn` an optional handler token (`none` models a
non-callable value). -/
structure rawEventInfo where
  name : String
  target : Option binderTarget
  stage : Option eventStage
  id : String
  fn : Option Nat
deriving DecidableEq, Repr

/-- A resolved (canonical) event descriptor (`additionalEventInfo` in the source). -/
structure additionalEventInfo where
  name : String
  stage : eventStage
  target : binderTarget
deriving DecidableEq, Repr

/-- `getEventInfo`: the descriptor resolver — legacy translation, stage
extraction, target inference; an explicitly supplied stage wins. -/
def getEventInfo (info : rawEventInfo) : additionalEventInfo :=
  let p := match getEventTargetByOldLogic info.name with
    | some (n, t) => (n, some t)
    | none => (info.name, info.target)
  let q := getEventStage p.1
  let target := match p.2 with
    | some t => t
    | none => getEventTargetByEventName q.2
  ⟨q.2, info.stage.getD q.1, target⟩

/-- Number of deprecation warnings logged by one `getEventInfo` call. -/
def getEventInfoWarnCount (info : rawEventInfo) : Nat :=
  getEventTargetByOldLogicWarns info.name

/-- Re-inject a canonical descriptor as a raw one (target and stage explicitly
present), to study re-resolution. -/
def toRawEventInfo (a : additionalEventInfo) : rawEventInfo :=
  ⟨a.name, some a.target, some a.stage, "", none⟩

/-- A fully-resolved subscription (`wholeEventInfo` in the source), as produced by
`prettifyEventParameter`. -/
structure wholeEventInfo where
  id : String
  fn : Nat
  name : String
  target : binderTarget
  stage : eventStage
deriving DecidableEq, Repr

/-- JS `typeof` for our handler model: `none` models the non-callable value
`undefined`. -/
def typeofFn : Option Nat → String
  | none => "undefined"
  | some _ => "function"

/-- `prettifyEventParameter`: resolve the descriptor and require a callable
handler, throwing (modelled as `Except.error` carrying the message) otherwise. -/
def prettifyEventParameter (info : rawEventInfo) : Except String wholeEventInfo :=
  let r := getEventInfo info
  match info.fn with
  | none =>
    .error ("You must provide a function to handle with event " ++ r.name ++
      ", but not " ++ typeofFn info.fn)
  | some f => .ok ⟨info.id, f, r.name, r.target, r.stage⟩

/-- An emission descriptor (`emitEventInfo` in the source): `none` in `name`/`id`
models an absent or non-string value. -/
structure emitEventInfo where
  id : Option String
  name : Option String
  target : Option binderTarget
deriving DecidableEq, Repr

/-- `isEventEmitalbe` (sic): the emission guard — the name must be a non-empty
string not matching the stage-prefix pattern, and the id a non-empty string.
Failure logs an error and returns `false`; it never throws. -/
def isEventEmitalbe (info : emitEventInfo) : Bool :=
  match info.name with
  | none => false
  | some n =>
    if n == "" || secondaryTest n then false
    else
      match info.id with
      | none => false
      | some i => i != ""

/-- Which Bus operation an emission delegates to. -/
inductive DispatchKind
  | emit
  | emitSync
  | trigger
  | triggerSync
deriving DecidableEq, Repr

/-- Observable outcome of one emission call: `dispatched = none` means the guard
short-circuited and the call returned a falsy value (`undefined`, or the backup
`false` for the Sync variants) without reaching any Bus; `loggedError` records
whether the guard logged. The operations are total functions: they never throw. -/
structure EmitOutcome where
  dispatched : Option (binderTarget × String × DispatchKind)
  loggedError : Bool
deriving DecidableEq, Repr

/-- Common core of the four emission operations: `@runnable(isEventEmitalbe)`
guards first; on success `@before(checkEventEmitParameter)` resolves the target
and the call delegates to that target's Bus. -/
def emitWith (k : DispatchKind) (info : emitEventInfo) : EmitOutcome :=
  if isEventEmitalbe info then
    let n := info.name.getD ""
    let t := (getEventInfo ⟨n, info.target, none, "", none⟩).target
    ⟨some (t, n, k), false⟩
  else ⟨none, true⟩

/-- One logical subscriber stored on a Bus. The Bus itself is external to
`src/`; it is modelled from the spec as a list of subscribers keyed by event
name (and stage/id), enough to expose registration, removal and the
"any subscriber remains for this name" query the Binder consumes. -/
structure Subscriber where
  id : String
  name : String
  stage : eventStage
  fn : Nat
  isOnce : Bool
deriving DecidableEq, Repr

/-- Modelled from the spec: `Bus#on` registers a logical subscriber. -/
def busOn (b : List Subscriber) (id name : String) (fn : Nat) (stage : eventStage) :
    List Subscriber :=
  b ++ [⟨id, name, stage, fn, false⟩]

/-- Modelled from the spec: `Bus#once` registers a one-shot logical subscriber. -/
def busOnce (b : List Subscriber) (id name : String) (fn : Nat) (stage : eventStage) :
    List Subscriber :=
  b ++ [⟨id, name, stage, fn, true⟩]

/-- Modelled from the spec: `Bus#off` removes the matching logical subscriber. -/
def busOff (b : List Subscriber) (id name : String) (fn : Nat) (stage : eventStage) :
    List Subscriber :=
  b.eraseP (fun x => x.id == id && x.name == name && x.fn == fn && x.stage == stage)

/-- The subscribers a Bus currently holds for a name (all stages and ids):
`isEmpty(bus.events[name])` in the source is emptiness of this list. -/
def busSubscribers (b : List Subscriber) (name : String) : List Subscriber :=
  b.filter (fun x => x.name == name)

/-- A physical DOM node of the player: the container, the wrapper, the primary
video element, or a plugin-contributed extended node. -/
inductive DomNode
  | container
  | wrapper
  | videoElement
  | extended (n : Nat)
deriving DecidableEq, Repr

/-- `addEvent` from `chimee-helper`, at the attachment-set level: DOM
`addEventListener` is keyed by (node, name, function identity) and double-add
is a no-op. The passive-option hint does not change the attachment set. -/
def addEvent (l : List (DomNode × String × Nat)) (node : DomNode) (name : String)
    (fn : Nat) : List (DomNode × String × Nat) :=
  if (node, name, fn) ∈ l then l else l ++ [(node, name, fn)]

/-- `removeEvent` from `chimee-helper`: remove the attachment keyed by
(node, name, function identity); a no-op when absent. -/
def removeEvent (l : List (DomNode × String × Nat)) (node : DomNode) (name : String)
    (fn : Nat) : List (DomNode × String × Nat) :=
  l.filter (fun x => x ≠ (node, name, fn))

/-- `removeEvent` called with a possibly-undefined function (`fn` of a
bookkeeping entry): with `undefined` it matches nothing. -/
def removeEventOpt (l : List (DomNode × String × Nat)) (node : DomNode) (name : String) :
    Option Nat → List (DomNode × String × Nat)
  | none => l
  | some f => removeEvent l node name f

/-- The Binder state (`class Binder`), together with the physical world it
mutates through its collaborators: the media-engine listener list, the DOM
attachment list, whether a media engine is attached
(`__dispatcher.kernel` non-null), and the current extended-node list
(`__dispatcher.dom.videoExtendedNodes`). `nextFn` supplies fresh identities
for relay closures. -/
structure Binder where
  bindedEventNames : binderTarget → List String
  bindedEventInfo : binderTarget → List (String × Option Nat)
  pendingEventsInfo : binderTarget → List (String × String)
  buses : binderTarget → List Subscriber
  nextFn : Nat
  kernelPresent : Bool
  kernelListeners : List (String × Nat)
  domListeners : List (DomNode × String × Nat)
  extendedNodes : List Nat

/-- Pointwise update of a target-indexed map. -/
def updateFn {α : Type} (f : binderTarget → α) (t : binderTarget) (v : α) :
    binderTarget → α :=
  fun t' => if t' = t then v else f t'

/-- `this.kinds`, as set up in the constructor. -/
def binderKinds : List binderTarget :=
  [.kernel, .container, .wrapper, .video, .videoDom, .plugin, .esFullscreen]

/-- The constructor's state: all bookkeeping empty, one empty Bus per kind. -/
def Binder.init (kernelPresent : Bool) (ext : List Nat) : Binder :=
  ⟨fun _ => [], fun _ => [], fun _ => [], fun _ => [], 0, kernelPresent, [], [], ext⟩

/-- `Binder#_isEventNeedToBeHandled`: `plugin` and `esFullscreen` need no relay,
nor do the always-on pointer names when the target is `video`. -/
def Binder.isEventNeedToBeHandled (target : binderTarget) (name : String) : Bool :=
  target != .plugin && target != .esFullscreen &&
    (!(mustListenVideoDomEvents.contains name) || target != .video)

/-- `Binder#_getTargetDom`: container/wrapper map to their own node, everything
else to the primary video element. -/
def Binder.getTargetDom : binderTarget → DomNode
  | .container => .container
  | .wrapper => .wrapper
  | _ => .videoElement

/-- `Binder#_addEventOnDom`: attach on a node (the passive-events branch passes a
passive option, which does not change the attachment set). -/
def Binder.addEventOnDom (s : Binder) (node : DomNode) (name : String) (fn : Nat) :
    Binder :=
  { s with domListeners := addEvent s.domListeners node name fn }

/-- `Binder#addPendingEvent`: append `(name, id)` to the target's pending list. -/
def Binder.addPendingEvent (s : Binder) (target : binderTarget) (name id : String) :
    Binder :=
  { s with pendingEventsInfo :=
      updateFn s.pendingEventsInfo target (s.pendingEventsInfo target ++ [(name, id)]) }

/-- Record a new `(name, relay)` pair in the Bound Names Set and Bound Relay
Entries of a target (the unconditional pushes at the end of
`_addEventListenerOnTarget`). -/
def Binder.pushBookkeeping (s : Binder) (target : binderTarget) (name : String)
    (fn : Option Nat) : Binder :=
  { s with
    bindedEventNames :=
      updateFn s.bindedEventNames target (s.bindedEventNames target ++ [name]),
    bindedEventInfo :=
      updateFn s.bindedEventInfo target (s.bindedEventInfo target ++ [(name, fn)]) }

/-- `Binder#_addEventListenerOnTarget`: lazily attach the single native relay for
`(target, name)`. Skips unhandled targets and already-bound names; for `kernel`
without a media engine it only enqueues a pending entry; for `video-dom` it
attaches the same relay on every extended node and the primary video node.
A fresh relay closure is modelled by consuming `nextFn`. -/
def Binder.addEventListenerOnTarget (s : Binder) (target : binderTarget)
    (name id : String) : Binder :=
  if ¬ Binder.isEventNeedToBeHandled target name then s
  else if name ∈ s.bindedEventNames target then s
  else
    match target with
    | .kernel =>
      if ¬ s.kernelPresent then s.addPendingEvent .kernel name id
      else
        let f := s.nextFn
        Binder.pushBookkeeping
          { s with kernelListeners := s.kernelListeners ++ [(name, f)],
                   nextFn := f + 1 }
          .kernel name (some f)
    | .container =>
      let f := s.nextFn
      Binder.pushBookkeeping
        (Binder.addEventOnDom { s with nextFn := f + 1 } (Binder.getTargetDom .container) name f)
        .container name (some f)
    | .wrapper =>
      let f := s.nextFn
      Binder.pushBookkeeping
        (Binder.addEventOnDom { s with nextFn := f + 1 } (Binder.getTargetDom .wrapper) name f)
        .wrapper name (some f)
    | .video =>
      let f := s.nextFn
      Binder.pushBookkeeping
        (Binder.addEventOnDom { s with nextFn := f + 1 } (Binder.getTargetDom .video) name f)
        .video name (some f)
    | .videoDom =>
      let f := s.nextFn
      let dl := s.extendedNodes.foldl
        (fun l n => addEvent l (.extended n) name f) s.domListeners
      let s₂ := { s with nextFn := f + 1,
                         domListeners := addEvent dl (Binder.getTargetDom .videoDom) name f }
      Binder.pushBookkeeping s₂ .videoDom name (some f)
    | _ =>
      -- plugin / esFullscreen: unreachable behind the guard; the JS would push
      -- a bookkeeping entry with an undefined relay.
      Binder.pushBookkeeping s target name none

/-- Remove a media-engine listener by (name, function identity);
`kernel.off` with an undefined function matches nothing. -/
def kernelOffOpt (l : List (String × Nat)) (name : String) :
    Option Nat → List (String × Nat)
  | none => l
  | some f => l.filter (fun x => x ≠ (name, f))

/-- `Binder#_removeEventListenerOnTargetWhenIsUseless`: after a Bus removal,
detach the native relay when the Bus holds no subscriber for the name any more,
and delete the two bookkeeping entries; otherwise leave everything in place. -/
def Binder.removeEventListenerOnTargetWhenIsUseless (s : Binder)
    (target : binderTarget) (name : String) : Binder :=
  if ¬ Binder.isEventNeedToBeHandled target name then s
  else if name ∉ s.bindedEventNames target then s
  else if busSubscribers (s.buses target) name ≠ [] then s
  else
    match (s.bindedEventInfo target).find? (fun p => p.1 == name) with
    | none => s
    | some (_, none) => s
    | some (_, some f) =>
      let s₁ :=
        if target = .kernel then
          { s with kernelListeners := s.kernelListeners.filter (fun x => x ≠ (name, f)) }
        else
          let dl := removeEvent s.domListeners (Binder.getTargetDom target) name f
          let dl₂ :=
            if target = .videoDom then
              s.extendedNodes.foldl (fun l n => removeEvent l (.extended n) name f) dl
            else dl
          { s with domListeners := dl₂ }
      { s₁ with
        bindedEventInfo := updateFn s₁.bindedEventInfo target
          ((s₁.bindedEventInfo target).eraseP (fun p => p.1 == name)),
        bindedEventNames := updateFn s₁.bindedEventNames target
          ((s₁.bindedEventNames target).erase name) }

/-- Body of `Binder#on` after `@before(prettifyEventParameter)`: ensure the
native relay exists, then register the logical subscriber on the target's Bus. -/
def Binder.onW (s : Binder) (w : wholeEventInfo) : Binder :=
  let s₁ := s.addEventListenerOnTarget w.target w.name w.id
  { s₁ with buses :=
      updateFn s₁.buses w.target (busOn (s₁.buses w.target) w.id w.name w.fn w.stage) }

/-- `Binder#on`: `@before(prettifyEventParameter)` then the body; a non-callable
handler makes the whole call throw, leaving the state untouched. -/
def Binder.on (s : Binder) (info : rawEventInfo) : Except String Binder :=
  (prettifyEventParameter info).map (fun w => s.onW w)

/-- Body of `Binder#off`: remove the subscriber from the Bus first, then tear the
relay down if it became useless. -/
def Binder.offW (s : Binder) (w : wholeEventInfo) : Binder :=
  let b := busOff (s.buses w.target) w.id w.name w.fn w.stage
  let s₁ := { s with buses := updateFn s.buses w.target b }
  s₁.removeEventListenerOnTargetWhenIsUseless w.target w.name

/-- `Binder#off` with its `@before(prettifyEventParameter)` decorator. -/
def Binder.off (s : Binder) (info : rawEventInfo) : Except String Binder :=
  (prettifyEventParameter info).map (fun w => s.offW w)

/-- Body of `Binder#once`: only registers the one-shot subscriber on the Bus —
no relay creation at all. -/
def Binder.onceW (s : Binder) (w : wholeEventInfo) : Binder :=
  { s with buses :=
      updateFn s.buses w.target (busOnce (s.buses w.target) w.id w.name w.fn w.stage) }

/-- `Binder#once` with its `@before(prettifyEventParameter)` decorator. -/
def Binder.once (s : Binder) (info : rawEventInfo) : Except String Binder :=
  (prettifyEventParameter info).map (fun w => s.onceW w)

/-- `Binder#emit`. -/
def Binder.emit (info : emitEventInfo) : EmitOutcome := emitWith .emit info

/-- `Binder#emitSync` (the backup makes the guarded failure return `false`). -/
def Binder.emitSync (info : emitEventInfo) : EmitOutcome := emitWith .emitSync info

/-- `Binder#trigger`. -/
def Binder.trigger (info : emitEventInfo) : EmitOutcome := emitWith .trigger info

/-- `Binder#triggerSync`. -/
def Binder.triggerSync (info : emitEventInfo) : EmitOutcome := emitWith .triggerSync info

/-- `Binder#destroy`, modelled faithfully: for each target kind it detaches every
bound relay (media engine for `kernel`; target node plus, for `video-dom`, every
extended node, for the others) — and then clears the `kernel` bookkeeping arrays,
exactly as the source writes `this.bindedEventInfo.kernel = []` and
`this.bindedEventNames.kernel = []` inside the loop over all kinds. -/
def Binder.destroyStep (st : Binder) (target : binderTarget) : Binder :=
  let st₁ :=
    if target = .kernel then
      let kl := (st.bindedEventInfo .kernel).foldl
        (fun l p => kernelOffOpt l p.1 p.2) st.kernelListeners
      { st with kernelListeners := kl }
    else
      let dl := (st.bindedEventInfo target).foldl
        (fun l p =>
          let l₁ := removeEventOpt l (Binder.getTargetDom target) p.1 p.2
          if target = .videoDom then
            match p.2 with
            | none => l₁
            | some f => st.extendedNodes.foldl
                (fun l₂ n => removeEvent l₂ (.extended n) p.1 f) l₁
          else l₁)
        st.domListeners
      { st with domListeners := dl }
  { st₁ with
    bindedEventInfo := updateFn st₁.bindedEventInfo .kernel [],
    bindedEventNames := updateFn st₁.bindedEventNames .kernel [] }

/-- `Binder#destroy`: the loop body over `this.kinds`, folded in order. -/
def Binder.destroy (s : Binder) : Binder :=
  binderKinds.foldl Binder.destroyStep s

/-- `Binder#applyPendingEvents`: splice the whole pending list out, then pop from
the end, replaying each entry as a fresh `_addEventListenerOnTarget` call. -/
def Binder.applyPendingEvents (s : Binder) (target : binderTarget) : Binder :=
  let copy := s.pendingEventsInfo target
  let s₁ := { s with pendingEventsInfo := updateFn s.pendingEventsInfo target [] }
  copy.reverse.foldl (fun st p => st.addEventListenerOnTarget target p.1 p.2) s₁

/-- Type of a native pointer-transition event. -/
inductive MouseEvType
  | mouseenter
  | mouseleave
deriving DecidableEq, Repr

/-- The fields of a native pointer event that the fused relay inspects:
`toElement`, `currentTarget`, `relatedTarget`, `type`. Elements are node
identities (`Nat`); `none` models a null/undefined element. -/
structure MouseEvent where
  evType : MouseEvType
  currentTarget : Nat
  toElement : Option Nat
  relatedTarget : Option Nat
deriving DecidableEq, Repr

/-- `dom.isNodeInsideVideo` (spec: DOM-containment test of the composite video
surface), with JS semantics that a null/undefined element is not inside. -/
def isNodeInsideVideo (surface : List Nat) : Option Nat → Bool
  | none => false
  | some n => surface.contains n

/-- `toElement || relatedTarget` — the destination element of a leave event. -/
def mouseEventDest (e : MouseEvent) : Option Nat :=
  match e.toElement with
  | some x => some x
  | none => e.relatedTarget

/-- The fused relay closure installed by `Binder#listenOnMouseMoveEvent` for each
always-on pointer name: given the containment boolean `dom.mouseInVideo` and a
native event, returns the new boolean and the number of synthetic `triggerSync`
emissions (0 or 1). -/
def listenOnMouseMoveHandler (surface : List Nat) (mouseInVideo : Bool)
    (e : MouseEvent) : Bool × Nat :=
  if mouseInVideo && e.evType == .mouseleave &&
      !(isNodeInsideVideo surface (mouseEventDest e)) then
    (false, 1)
  else if !mouseInVideo && e.evType == .mouseenter &&
      isNodeInsideVideo surface (some e.currentTarget) then
    (true, 1)
  else (mouseInVideo, 0)

/-- Run the tracker over a native event sequence, counting the synthetic
enter and leave emissions (each closure re-emits under the name it was
registered for, which is the type of the native event it receives). -/
def trackerRun (surface : List Nat) (st : Bool) (evs : List MouseEvent) :
    Bool × Nat × Nat :=
  evs.foldl
    (fun acc e =>
      let r := listenOnMouseMoveHandler surface acc.1 e
      (r.1,
        acc.2.1 + (if e.evType == .mouseenter then r.2 else 0),
        acc.2.2 + (if e.evType == .mouseleave then r.2 else 0)))
    (st, 0, 0)

/-- Number of Bound Relay Entries a target holds for a name. -/
def relayCount (s : Binder) (t : binderTarget) (nm : String) : Nat :=
  ((s.bindedEventInfo t).filter (fun p => p.1 == nm)).length

/-- Number of native listeners for a name on the primary physical source of a
target: the media engine for `kernel`, the target's DOM node otherwise. -/
def primaryNativeCount (s : Binder) (t : binderTarget) (nm : String) : Nat :=
  match t with
  | .kernel => (s.kernelListeners.filter (fun p => p.1 == nm)).length
  | _ => (s.domListeners.filter
      (fun x => x.1 == Binder.getTargetDom t && x.2.1 == nm)).length

/-! ### Helper lemmas -/

theorem updateFn_same {α : Type} (f : binderTarget → α) (t : binderTarget) (v : α) :
    updateFn f t v t = v := by
  simp [updateFn]

theorem updateFn_ne {α : Type} (f : binderTarget → α) (t t' : binderTarget) (v : α)
    (h : t' ≠ t) : updateFn f t v t' = f t' := by
  simp [updateFn, h]

theorem secondaryTest_parts {name : String} (h : secondaryTest name = false) :
    strStarts "before" name = false ∧ strStarts "after" name = false ∧
      strStarts "_" name = false := by
  simp only [secondaryTest, Bool.or_eq_false_iff] at h
  exact ⟨h.1.1, h.1.2, h.2⟩

theorem getEventStage_of_no_stage {name : String} (h : secondaryTest name = false) :
    getEventStage name = (.main, name) := by
  obtain ⟨h1, h2, h3⟩ := secondaryTest_parts h
  simp [getEventStage, h1, h2, h3]

/-! ### C6 — resolver idempotence -/

/-- C6 (counterexample): `getEventInfo` is not idempotent on its own output.
Resolving `{name: "c_error"}` yields `{name: "error", target: container,
stage: main}`, but re-resolving that canonical descriptor runs the legacy
`"error"` rule again and flips the target to `kernel`. -/
theorem getEventInfo_not_idempotent_on_c_error :
    getEventInfo (toRawEventInfo (getEventInfo ⟨"c_error", none, none, "", none⟩)) ≠
      getEventInfo ⟨"c_error", none, none, "", none⟩ := by
  decide

/-- C6 (amended): resolving an already-canonical descriptor returns it unchanged,
provided the canonical name does not itself match the legacy `c_`/`w_` prefix
pattern or the stage-prefix pattern, and, if it is the bare `"error"`, its
target is `kernel`; the resolver re-applies the legacy and stage rules to its
own output, so outputs still matching those patterns (such as the one produced
from `{name: "c_error"}`) are re-translated. -/
theorem getEventInfo_idempotent_on_canonical (o : additionalEventInfo)
    (h1 : strStarts "c_" o.name = false) (h2 : strStarts "w_" o.name = false)
    (h3 : o.name = "error" → o.target = .kernel)
    (h4 : secondaryTest o.name = false) :
    getEventInfo (toRawEventInfo o) = o := by
  obtain ⟨nm, stg, tg⟩ := o
  simp only at h1 h2 h3 h4
  by_cases he : nm = "error"
  · subst he
    have htg : tg = .kernel := h3 rfl
    subst htg
    simp [getEventInfo, toRawEventInfo, getEventTargetByOldLogic, h1, h2]
    decide
  · have hbeq : (nm == "error") = false := by
      simp [he]
    simp [getEventInfo, toRawEventInfo, getEventTargetByOldLogic, h1, h2, hbeq,
      getEventStage_of_no_stage h4]

/-- Witness for C6 (amended) at the canonical descriptor
`{name: "play", stage: main, target: video}`. -/
theorem getEventInfo_idempotent_on_canonical_witness :
    getEventInfo (toRawEventInfo ⟨"play", .main, .video⟩) = ⟨"play", .main, .video⟩ :=
  getEventInfo_idempotent_on_canonical ⟨"play", .main, .video⟩ (by decide) (by decide)
    (by decide) (by decide)

/-! ### C10 — legacy translation -/

/-- C10: `{name: "c_click"}` resolves to `{name: "click", target: container,
stage: main}` with exactly one deprecation warning; symmetrically a
`"w_"`-prefixed name (with no stage prefix left after stripping) maps to
target `wrapper` with the prefix stripped, also with exactly one warning; and
`{name: "error"}` resolves to target `kernel` with the name unchanged. -/
theorem getEventInfo_legacy_mapping :
    (getEventInfo ⟨"c_click", none, none, "", none⟩ = ⟨"click", .main, .container⟩ ∧
      getEventInfoWarnCount ⟨"c_click", none, none, "", none⟩ = 1) ∧
    (∀ n : String, secondaryTest n = false →
      getEventInfo ⟨"w_" ++ n, none, none, "", none⟩ = ⟨n, .main, .wrapper⟩ ∧
        getEventInfoWarnCount ⟨"w_" ++ n, none, none, "", none⟩ = 1) ∧
    getEventInfo ⟨"error", none, none, "", none⟩ = ⟨"error", .main, .kernel⟩ := by
  refine ⟨⟨by decide, by decide⟩, ?_, by decide⟩
  intro n hn
  have hw : strStarts "w_" ("w_" ++ n) = true := by
    simp [strStarts, String.data_append, List.isPrefixOf]
  have hc : strStarts "c_" ("w_" ++ n) = false := by
    simp [strStarts, String.data_append, List.isPrefixOf]
  have hd : strDropN ("w_" ++ n) 2 = n := by
    simp [strDropN, String.data_append]
  constructor
  · simp [getEventInfo, getEventTargetByOldLogic, hw, hc, hd,
      getEventStage_of_no_stage hn]
  · simp [getEventInfoWarnCount, getEventTargetByOldLogicWarns, hw, hc]

/-- Witness for C10 at `n = "click"`: `{name: "w_click"}` resolves to
`{name: "click", target: wrapper, stage: main}` with one warning. -/
theorem getEventInfo_legacy_mapping_witness :
    getEventInfo ⟨"w_" ++ "click", none, none, "", none⟩ = ⟨"click", .main, .wrapper⟩ ∧
      getEventInfoWarnCount ⟨"w_" ++ "click", none, none, "", none⟩ = 1 :=
  getEventInfo_legacy_mapping.2.1 "click" (by decide)

/-! ### C5 — emission validation -/

/-- C5: for each of `emit`, `emitSync`, `trigger` and `triggerSync`, an absent or
non-string or empty name, a name matching the stage-prefix pattern, or an
absent, non-string or empty id makes the operation log an error, perform no Bus
dispatch, and return a falsy result (`undefined`, or the backup `false` for the
Sync variants, both modelled by `dispatched = none`); the operations are total
functions, so they never throw. -/
theorem binder_emit_validation (info : emitEventInfo)
    (h : info.name = none ∨ info.name = some "" ∨
      (∃ n, info.name = some n ∧ secondaryTest n = true) ∨
      info.id = none ∨ info.id = some "") :
    Binder.emit info = ⟨none, true⟩ ∧ Binder.emitSync info = ⟨none, true⟩ ∧
      Binder.trigger info = ⟨none, true⟩ ∧ Binder.triggerSync info = ⟨none, true⟩ := by
  have hg : isEventEmitalbe info = false := by
    unfold isEventEmitalbe
    rcases h with h | h | ⟨n, hn, hsec⟩ | h | h
    · simp [h]
    · simp [h]
    · simp [hn, hsec]
    · rcases hi : info.name with _ | n
      · simp
      · simp only
        split
        · rfl
        · simp [h]
    · rcases hi : info.name with _ | n
      · simp
      · simp only
        split
        · rfl
        · simp [h]
  simp [Binder.emit, Binder.emitSync, Binder.trigger, Binder.triggerSync, emitWith, hg]

/-- Witness for C5 at `emit({id: "", name: "play"})` (and the other three
operations on the same input). -/
theorem binder_emit_validation_witness :
    Binder.emit ⟨some "", some "play", none⟩ = ⟨none, true⟩ ∧
      Binder.emitSync ⟨some "", some "play", none⟩ = ⟨none, true⟩ ∧
      Binder.trigger ⟨some "", some "play", none⟩ = ⟨none, true⟩ ∧
      Binder.triggerSync ⟨some "", some "play", none⟩ = ⟨none, true⟩ :=
  binder_emit_validation ⟨some "", some "play", none⟩ (by simp)

/-! ### C9 — non-callable handler -/

/-- C9: for `on`, `off` and `once`, a non-callable handler makes the call throw
an error whose message names the resolved event name; the throw happens in the
`prettifyEventParameter` pre-hook, before any state is touched, so the Binder
state is unchanged (no `Binder` value is produced at all: the result is
`Except.error`, whatever the starting state). -/
theorem binder_subscription_throws_on_noncallable (s : Binder) (info : rawEventInfo)
    (h : info.fn = none) :
    Binder.on s info = .error ("You must provide a function to handle with event " ++
        (getEventInfo info).name ++ ", but not undefined") ∧
      Binder.off s info = .error ("You must provide a function to handle with event " ++
        (getEventInfo info).name ++ ", but not undefined") ∧
      Binder.once s info = .error ("You must provide a function to handle with event " ++
        (getEventInfo info).name ++ ", but not undefined") := by
  simp [Binder.on, Binder.off, Binder.once, prettifyEventParameter, h, typeofFn,
    Except.map, String.append_assoc]

/-- Witness for C9: subscribing to `"c_click"` with a non-callable handler throws
an error naming the resolved event `click`. -/
theorem binder_subscription_throws_on_noncallable_witness :
    Binder.on (Binder.init true []) ⟨"c_click", none, none, "a", none⟩ =
        .error "You must provide a function to handle with event click, but not undefined" ∧
      Binder.off (Binder.init true []) ⟨"c_click", none, none, "a", none⟩ =
        .error "You must provide a function to handle with event click, but not undefined" ∧
      Binder.once (Binder.init true []) ⟨"c_click", none, none, "a", none⟩ =
        .error "You must provide a function to handle with event click, but not undefined" := by
  have h := binder_subscription_throws_on_noncallable (Binder.init true [])
    ⟨"c_click", none, none, "a", none⟩ rfl
  simpa using h

/-! ### C8 — `once` is Bus-only -/

/-- C8: `once` (after parameter resolution) only registers the one-shot
subscriber on the target's Bus: for every state and every resolved
subscription, it attaches no native listener (media-engine and DOM attachment
lists unchanged), creates no relay closure (`nextFn` unchanged), and leaves
the Bound Relay Entries, Bound Names Set and pending queue of every target
kind unchanged — unlike `on`, which ensures a relay exists (shown on a
concrete example in the last two conjuncts). -/
theorem binder_once_frame (s : Binder) (w : wholeEventInfo) :
    (s.onceW w).bindedEventNames = s.bindedEventNames ∧
      (s.onceW w).bindedEventInfo = s.bindedEventInfo ∧
      (s.onceW w).pendingEventsInfo = s.pendingEventsInfo ∧
      (s.onceW w).kernelListeners = s.kernelListeners ∧
      (s.onceW w).domListeners = s.domListeners ∧
      (s.onceW w).nextFn = s.nextFn ∧
      (s.onceW w).buses =
        updateFn s.buses w.target (busOnce (s.buses w.target) w.id w.name w.fn w.stage) ∧
      ((Binder.init true []).onceW ⟨"a", 0, "foo", .container, .main⟩).bindedEventNames
        .container = [] ∧
      ((Binder.init true []).onW ⟨"a", 0, "foo", .container, .main⟩).bindedEventNames
        .container = ["foo"] := by
  refine ⟨rfl, rfl, rfl, rfl, rfl, rfl, rfl, by decide, ?_⟩
  decide

/-! ### List lemmas about attachment folds -/

theorem addEvent_mem {l : List (DomNode × String × Nat)} {node nm f x}
    (hx : x ∈ addEvent l node nm f) : x ∈ l ∨ x = (node, nm, f) := by
  unfold addEvent at hx
  split at hx
  · exact .inl hx
  · rcases List.mem_append.mp hx with h | h
    · exact .inl h
    · exact .inr (List.mem_singleton.mp h)

theorem foldAttachExt_mem {nm : String} {f : Nat} :
    ∀ (ext : List Nat) {l : List (DomNode × String × Nat)} {x},
      x ∈ ext.foldl (fun l n => addEvent l (.extended n) nm f) l →
      x ∈ l ∨ ∃ n ∈ ext, x = (.extended n, nm, f)
  | [], _, _, hx => .inl hx
  | n₀ :: ns, l, x, hx => by
    rcases foldAttachExt_mem ns hx with h | ⟨n, hn, hx'⟩
    · rcases addEvent_mem h with h' | h'
      · exact .inl h'
      · exact .inr ⟨n₀, List.mem_cons_self _ _, h'⟩
    · exact .inr ⟨n, List.mem_cons_of_mem _ hn, hx'⟩

theorem foldAttachExt_filter {nm : String} {f : Nat}
    {q : DomNode × String × Nat → Bool} (hq : ∀ n, q (.extended n, nm, f) = false) :
    ∀ (ext : List Nat) (l : List (DomNode × String × Nat)),
      (ext.foldl (fun l n => addEvent l (.extended n) nm f) l).filter q = l.filter q
  | [], _ => rfl
  | n₀ :: ns, l => by
    have : (addEvent l (.extended n₀) nm f).filter q = l.filter q := by
      unfold addEvent
      split
      · rfl
      · simp [List.filter_append, hq n₀]
    simpa [this] using foldAttachExt_filter hq ns (addEvent l (.extended n₀) nm f)

theorem removeEvent_mem {l : List (DomNode × String × Nat)} {node nm f x} :
    x ∈ removeEvent l node nm f ↔ x ∈ l ∧ x ≠ (node, nm, f) := by
  simp [removeEvent]

theorem foldRemoveExt_mem {nm : String} {f : Nat} :
    ∀ (ext : List Nat) {l : List (DomNode × String × Nat)} {x},
      x ∈ ext.foldl (fun l n => removeEvent l (.extended n) nm f) l →
      x ∈ l ∧ ∀ n ∈ ext, x ≠ (.extended n, nm, f)
  | [], _, _, hx => ⟨hx, by simp⟩
  | n₀ :: ns, l, x, hx => by
    obtain ⟨h₁, h₂⟩ := foldRemoveExt_mem ns hx
    obtain ⟨h₃, h₄⟩ := removeEvent_mem.mp h₁
    refine ⟨h₃, ?_⟩
    intro n hn
    rcases List.mem_cons.mp hn with h | h
    · exact h ▸ h₄
    · exact h₂ n h

/-! ### C2 — at most one native relay per (target, name) -/

/-- C2: for every handled target kind and event name, subscribing twice (two
ids/handlers, any stages) to the same `(target, name)` from a fresh Binder
yields exactly one Bound Relay Entry, exactly one native listener on the
target's physical source, and exactly two logical subscribers on that
target's Bus; and in general, when a relay for `(target, name)` already
exists, `_addEventListenerOnTarget` attaches nothing new (it returns the
state unchanged), while `on` still registers the new Bus subscriber. -/
theorem binder_at_most_one_relay (t : binderTarget) (nm id1 id2 : String)
    (f1 f2 : Nat) (st1 st2 : eventStage) (ext : List Nat)
    (h : Binder.isEventNeedToBeHandled t nm = true) :
    relayCount (((Binder.init true ext).onW ⟨id1, f1, nm, t, st1⟩).onW
        ⟨id2, f2, nm, t, st2⟩) t nm = 1 ∧
      primaryNativeCount (((Binder.init true ext).onW ⟨id1, f1, nm, t, st1⟩).onW
        ⟨id2, f2, nm, t, st2⟩) t nm = 1 ∧
      (busSubscribers ((((Binder.init true ext).onW ⟨id1, f1, nm, t, st1⟩).onW
        ⟨id2, f2, nm, t, st2⟩).buses t) nm).length = 2 ∧
      (∀ s : Binder, nm ∈ s.bindedEventNames t →
        s.addEventListenerOnTarget t nm id2 = s) := by
  have skip : ∀ s : Binder, nm ∈ s.bindedEventNames t →
      s.addEventListenerOnTarget t nm id2 = s := by
    intro s hmem
    simp [Binder.addEventListenerOnTarget, h, hmem]
  cases t with
  | plugin => exact absurd h (by simp [Binder.isEventNeedToBeHandled])
  | esFullscreen => exact absurd h (by simp [Binder.isEventNeedToBeHandled])
  | kernel =>
    refine ⟨?_, ?_, ?_, skip⟩ <;>
      simp [Binder.onW, Binder.addEventListenerOnTarget, Binder.init,
        Binder.isEventNeedToBeHandled, Binder.addEventOnDom, Binder.pushBookkeeping,
        Binder.addPendingEvent, addEvent, relayCount, primaryNativeCount,
        Binder.getTargetDom, updateFn, busOn, busSubscribers]
  | container =>
    refine ⟨?_, ?_, ?_, skip⟩ <;>
      simp [Binder.onW, Binder.addEventListenerOnTarget, Binder.init,
        Binder.isEventNeedToBeHandled, Binder.addEventOnDom, Binder.pushBookkeeping,
        addEvent, relayCount, primaryNativeCount, Binder.getTargetDom, updateFn,
        busOn, busSubscribers]
  | wrapper =>
    refine ⟨?_, ?_, ?_, skip⟩ <;>
      simp [Binder.onW, Binder.addEventListenerOnTarget, Binder.init,
        Binder.isEventNeedToBeHandled, Binder.addEventOnDom, Binder.pushBookkeeping,
        addEvent, relayCount, primaryNativeCount, Binder.getTargetDom, updateFn,
        busOn, busSubscribers]
  | video =>
    refine ⟨?_, ?_, ?_, skip⟩ <;>
      simp [Binder.onW, Binder.addEventListenerOnTarget, Binder.init, h,
        Binder.addEventOnDom, Binder.pushBookkeeping, addEvent, relayCount,
        primaryNativeCount, Binder.getTargetDom, updateFn, busOn, busSubscribers]
  | videoDom =>
    have hmem : (DomNode.videoElement, nm, 0) ∉
        ext.foldl (fun l n => addEvent l (.extended n) nm 0) [] := by
      intro hx
      rcases foldAttachExt_mem _ hx with h' | ⟨n, _, h'⟩
      · exact absurd h' (List.not_mem_nil _)
      · simp at h'
    have hfil := @foldAttachExt_filter nm 0
      (fun x => x.1 == DomNode.videoElement && x.2.1 == nm) (by intro n; simp) ext []
    refine ⟨?_, ?_, ?_, skip⟩
    · simp [Binder.onW, Binder.addEventListenerOnTarget, Binder.init,
        Binder.isEventNeedToBeHandled, Binder.pushBookkeeping, addEvent, relayCount,
        Binder.getTargetDom, updateFn, busOn]
    · simp only [Binder.onW, Binder.addEventListenerOnTarget, Binder.init,
        Binder.isEventNeedToBeHandled, Binder.pushBookkeeping, Binder.getTargetDom,
        primaryNativeCount, updateFn, busOn]
      simp [addEvent, updateFn]
      simp only [addEvent] at hmem hfil
      rw [if_neg hmem, List.filter_append, hfil]
      simp
    · simp [Binder.onW, Binder.addEventListenerOnTarget, Binder.init,
        Binder.isEventNeedToBeHandled, Binder.pushBookkeeping, addEvent,
        Binder.getTargetDom, updateFn, busOn, busSubscribers]

/-- Witness for C2 at target `container`, name `"foo"`, ids `"a"`/`"b"`; the
skip conjunct is applied at the one-subscription state, where `"foo"` is
already bound. -/
theorem binder_at_most_one_relay_witness :
    relayCount (((Binder.init true [5]).onW ⟨"a", 1, "foo", .container, .main⟩).onW
        ⟨"b", 2, "foo", .container, .main⟩) .container "foo" = 1 ∧
      primaryNativeCount (((Binder.init true [5]).onW ⟨"a", 1, "foo", .container, .main⟩).onW
        ⟨"b", 2, "foo", .container, .main⟩) .container "foo" = 1 ∧
      (busSubscribers ((((Binder.init true [5]).onW ⟨"a", 1, "foo", .container, .main⟩).onW
        ⟨"b", 2, "foo", .container, .main⟩).buses .container) "foo").length = 2 ∧
      ((Binder.init true [5]).onW ⟨"a", 1, "foo", .container, .main⟩).addEventListenerOnTarget
        .container "foo" "b" = (Binder.init true [5]).onW ⟨"a", 1, "foo", .container, .main⟩ :=
  ⟨(binder_at_most_one_relay .container "foo" "a" "b" 1 2 .main .main [5] (by decide)).1,
    (binder_at_most_one_relay .container "foo" "a" "b" 1 2 .main .main [5] (by decide)).2.1,
    (binder_at_most_one_relay .container "foo" "a" "b" 1 2 .main .main [5] (by decide)).2.2.1,
    (binder_at_most_one_relay .container "foo" "a" "b" 1 2 .main .main [5] (by decide)).2.2.2
      ((Binder.init true [5]).onW ⟨"a", 1, "foo", .container, .main⟩) (by decide)⟩

/-! ### C3 — relay teardown on last unsubscribe -/

/-- C3: starting from a fresh Binder with two subscribers on the same handled
`(target, name)`: after `off` removes the first subscriber, the relay and its
native listener stay attached and one Bus subscriber remains; after `off`
removes the last subscriber, the native relay is detached from its physical
source (media engine for `kernel`; target DOM node and, for `video-dom`, every
extended node, for the others — all attachment lists end empty) and both
bookkeeping entries for the name are deleted; and `_removeEventListenerOnTarget-
WhenIsUseless` is a no-op for any `(target, name)` that was never attached. -/
theorem binder_relay_teardown (t : binderTarget) (nm id1 id2 : String)
    (f1 f2 : Nat) (st1 st2 : eventStage) (ext : List Nat)
    (h : Binder.isEventNeedToBeHandled t nm = true) :
    relayCount ((((Binder.init true ext).onW ⟨id1, f1, nm, t, st1⟩).onW
        ⟨id2, f2, nm, t, st2⟩).offW ⟨id1, f1, nm, t, st1⟩) t nm = 1 ∧
      primaryNativeCount ((((Binder.init true ext).onW ⟨id1, f1, nm, t, st1⟩).onW
        ⟨id2, f2, nm, t, st2⟩).offW ⟨id1, f1, nm, t, st1⟩) t nm = 1 ∧
      (busSubscribers (((((Binder.init true ext).onW ⟨id1, f1, nm, t, st1⟩).onW
        ⟨id2, f2, nm, t, st2⟩).offW ⟨id1, f1, nm, t, st1⟩).buses t) nm).length = 1 ∧
      relayCount (((((Binder.init true ext).onW ⟨id1, f1, nm, t, st1⟩).onW
        ⟨id2, f2, nm, t, st2⟩).offW ⟨id1, f1, nm, t, st1⟩).offW
        ⟨id2, f2, nm, t, st2⟩) t nm = 0 ∧
      nm ∉ (((((Binder.init true ext).onW ⟨id1, f1, nm, t, st1⟩).onW
        ⟨id2, f2, nm, t, st2⟩).offW ⟨id1, f1, nm, t, st1⟩).offW
        ⟨id2, f2, nm, t, st2⟩).bindedEventNames t ∧
      (((((Binder.init true ext).onW ⟨id1, f1, nm, t, st1⟩).onW
        ⟨id2, f2, nm, t, st2⟩).offW ⟨id1, f1, nm, t, st1⟩).offW
        ⟨id2, f2, nm, t, st2⟩).kernelListeners = [] ∧
      (((((Binder.init true ext).onW ⟨id1, f1, nm, t, st1⟩).onW
        ⟨id2, f2, nm, t, st2⟩).offW ⟨id1, f1, nm, t, st1⟩).offW
        ⟨id2, f2, nm, t, st2⟩).domListeners = [] ∧
      (busSubscribers ((((((Binder.init true ext).onW ⟨id1, f1, nm, t, st1⟩).onW
        ⟨id2, f2, nm, t, st2⟩).offW ⟨id1, f1, nm, t, st1⟩).offW
        ⟨id2, f2, nm, t, st2⟩).buses t) nm).length = 0 ∧
      (∀ (s : Binder) (tk : binderTarget) (nk : String), nk ∉ s.bindedEventNames tk →
        s.removeEventListenerOnTargetWhenIsUseless tk nk = s) := by
  have noop : ∀ (s : Binder) (tk : binderTarget) (nk : String),
      nk ∉ s.bindedEventNames tk →
      s.removeEventListenerOnTargetWhenIsUseless tk nk = s := by
    intro s tk nk hmem
    simp [Binder.removeEventListenerOnTargetWhenIsUseless, hmem]
  cases t with
  | plugin => exact absurd h (by simp [Binder.isEventNeedToBeHandled])
  | esFullscreen => exact absurd h (by simp [Binder.isEventNeedToBeHandled])
  | kernel =>
    refine ⟨?_, ?_, ?_, ?_, ?_, ?_, ?_, ?_, noop⟩ <;>
      simp [Binder.onW, Binder.offW, Binder.addEventListenerOnTarget,
        Binder.removeEventListenerOnTargetWhenIsUseless, Binder.init,
        Binder.isEventNeedToBeHandled, Binder.addEventOnDom, Binder.pushBookkeeping,
        Binder.addPendingEvent, addEvent, removeEvent, relayCount, primaryNativeCount,
        Binder.getTargetDom, updateFn, busOn, busOff, busSubscribers]
  | container =>
    refine ⟨?_, ?_, ?_, ?_, ?_, ?_, ?_, ?_, noop⟩ <;>
      simp [Binder.onW, Binder.offW, Binder.addEventListenerOnTarget,
        Binder.removeEventListenerOnTargetWhenIsUseless, Binder.init,
        Binder.isEventNeedToBeHandled, Binder.addEventOnDom, Binder.pushBookkeeping,
        Binder.addPendingEvent, addEvent, removeEvent, relayCount, primaryNativeCount,
        Binder.getTargetDom, updateFn, busOn, busOff, busSubscribers]
  | wrapper =>
    refine ⟨?_, ?_, ?_, ?_, ?_, ?_, ?_, ?_, noop⟩ <;>
      simp [Binder.onW, Binder.offW, Binder.addEventListenerOnTarget,
        Binder.removeEventListenerOnTargetWhenIsUseless, Binder.init,
        Binder.isEventNeedToBeHandled, Binder.addEventOnDom, Binder.pushBookkeeping,
        Binder.addPendingEvent, addEvent, removeEvent, relayCount, primaryNativeCount,
        Binder.getTargetDom, updateFn, busOn, busOff, busSubscribers]
  | video =>
    refine ⟨?_, ?_, ?_, ?_, ?_, ?_, ?_, ?_, noop⟩ <;>
      simp [Binder.onW, Binder.offW, Binder.addEventListenerOnTarget,
        Binder.removeEventListenerOnTargetWhenIsUseless, Binder.init,
        Binder.addEventOnDom, Binder.pushBookkeeping,
        Binder.addPendingEvent, addEvent, removeEvent, relayCount, primaryNativeCount,
        Binder.getTargetDom, updateFn, busOn, busOff, busSubscribers, h]
  | videoDom =>
    have hmem : (DomNode.videoElement, nm, 0) ∉
        ext.foldl (fun l n => addEvent l (.extended n) nm 0) [] := by
      intro hx
      rcases foldAttachExt_mem _ hx with h' | ⟨n, _, h'⟩
      · exact absurd h' (List.not_mem_nil _)
      · simp at h'
    have hfil := @foldAttachExt_filter nm 0
      (fun x => x.1 == DomNode.videoElement && x.2.1 == nm) (by intro n; simp) ext []
    refine ⟨?_, ?_, ?_, ?_, ?_, ?_, ?_, ?_, noop⟩
    · simp [Binder.onW, Binder.offW, Binder.addEventListenerOnTarget,
        Binder.removeEventListenerOnTargetWhenIsUseless, Binder.init,
        Binder.isEventNeedToBeHandled, Binder.addEventOnDom, Binder.pushBookkeeping,
        Binder.addPendingEvent, addEvent, removeEvent, relayCount, primaryNativeCount,
        Binder.getTargetDom, updateFn, busOn, busOff, busSubscribers]
    · simp only [Binder.onW, Binder.offW, Binder.addEventListenerOnTarget,
        Binder.removeEventListenerOnTargetWhenIsUseless, Binder.init,
        Binder.isEventNeedToBeHandled, Binder.pushBookkeeping, Binder.getTargetDom,
        primaryNativeCount, updateFn, busOn, busOff, busSubscribers]
      simp [addEvent, updateFn]
      simp only [addEvent] at hmem hfil
      rw [if_neg hmem, List.filter_append, hfil]
      simp
    · simp [Binder.onW, Binder.offW, Binder.addEventListenerOnTarget,
        Binder.removeEventListenerOnTargetWhenIsUseless, Binder.init,
        Binder.isEventNeedToBeHandled, Binder.addEventOnDom, Binder.pushBookkeeping,
        Binder.addPendingEvent, addEvent, removeEvent, relayCount, primaryNativeCount,
        Binder.getTargetDom, updateFn, busOn, busOff, busSubscribers]
    · simp [Binder.onW, Binder.offW, Binder.addEventListenerOnTarget,
        Binder.removeEventListenerOnTargetWhenIsUseless, Binder.init,
        Binder.isEventNeedToBeHandled, Binder.addEventOnDom, Binder.pushBookkeeping,
        Binder.addPendingEvent, addEvent, removeEvent, relayCount, primaryNativeCount,
        Binder.getTargetDom, updateFn, busOn, busOff, busSubscribers]
    · simp [Binder.onW, Binder.offW, Binder.addEventListenerOnTarget,
        Binder.removeEventListenerOnTargetWhenIsUseless, Binder.init,
        Binder.isEventNeedToBeHandled, Binder.addEventOnDom, Binder.pushBookkeeping,
        Binder.addPendingEvent, addEvent, removeEvent, relayCount, primaryNativeCount,
        Binder.getTargetDom, updateFn, busOn, busOff, busSubscribers]
    · simp [Binder.onW, Binder.offW, Binder.addEventListenerOnTarget,
        Binder.removeEventListenerOnTargetWhenIsUseless, Binder.init,
        Binder.isEventNeedToBeHandled, Binder.addEventOnDom, Binder.pushBookkeeping,
        Binder.addPendingEvent, addEvent, removeEvent, relayCount, primaryNativeCount,
        Binder.getTargetDom, updateFn, busOn, busOff, busSubscribers]
    · simp [Binder.onW, Binder.offW, Binder.addEventListenerOnTarget,
        Binder.removeEventListenerOnTargetWhenIsUseless, Binder.init,
        Binder.isEventNeedToBeHandled, Binder.addEventOnDom, Binder.pushBookkeeping,
        relayCount, primaryNativeCount,
        Binder.getTargetDom, updateFn, busOn, busOff, busSubscribers]
      apply List.eq_nil_iff_forall_not_mem.mpr
      intro x hx
      obtain ⟨h1, h2⟩ := foldRemoveExt_mem _ hx
      obtain ⟨h3, h4⟩ := removeEvent_mem.mp h1
      rcases addEvent_mem h3 with h6 | h6
      · rcases foldAttachExt_mem _ h6 with h7 | ⟨n, hn, h7⟩
        · exact absurd h7 (List.not_mem_nil _)
        · exact h2 n hn h7
      · exact h4 h6
    · simp [Binder.onW, Binder.offW, Binder.addEventListenerOnTarget,
        Binder.removeEventListenerOnTargetWhenIsUseless, Binder.init,
        Binder.isEventNeedToBeHandled, Binder.addEventOnDom, Binder.pushBookkeeping,
        Binder.addPendingEvent, addEvent, removeEvent, relayCount, primaryNativeCount,
        Binder.getTargetDom, updateFn, busOn, busOff, busSubscribers]

/-- Witness for C3 at target `container`, name `"foo"`; the no-op conjunct is
applied at a fresh Binder, where nothing was ever attached. -/
theorem binder_relay_teardown_witness :
    relayCount ((((Binder.init true [5]).onW ⟨"a", 1, "foo", .container, .main⟩).onW
        ⟨"b", 2, "foo", .container, .main⟩).offW ⟨"a", 1, "foo", .container, .main⟩) .container "foo" = 1 ∧
    primaryNativeCount ((((Binder.init true [5]).onW ⟨"a", 1, "foo", .container, .main⟩).onW
        ⟨"b", 2, "foo", .container, .main⟩).offW ⟨"a", 1, "foo", .container, .main⟩) .container "foo" = 1 ∧
    (busSubscribers (((((Binder.init true [5]).onW ⟨"a", 1, "foo", .container, .main⟩).onW
        ⟨"b", 2, "foo", .container, .main⟩).offW ⟨"a", 1, "foo", .container, .main⟩).buses .container) "foo").length = 1 ∧
    relayCount (((((Binder.init true [5]).onW ⟨"a", 1, "foo", .container, .main⟩).onW
        ⟨"b", 2, "foo", .container, .main⟩).offW ⟨"a", 1, "foo", .container, .main⟩).offW ⟨"b", 2, "foo", .container, .main⟩) .container "foo" = 0 ∧
    "foo" ∉ (((((Binder.init true [5]).onW ⟨"a", 1, "foo", .container, .main⟩).onW
        ⟨"b", 2, "foo", .container, .main⟩).offW ⟨"a", 1, "foo", .container, .main⟩).offW ⟨"b", 2, "foo", .container, .main⟩).bindedEventNames .container ∧
    (((((Binder.init true [5]).onW ⟨"a", 1, "foo", .container, .main⟩).onW
        ⟨"b", 2, "foo", .container, .main⟩).offW ⟨"a", 1, "foo", .container, .main⟩).offW ⟨"b", 2, "foo", .container, .main⟩).kernelListeners = [] ∧
    (((((Binder.init true [5]).onW ⟨"a", 1, "foo", .container, .main⟩).onW
        ⟨"b", 2, "foo", .container, .main⟩).offW ⟨"a", 1, "foo", .container, .main⟩).offW ⟨"b", 2, "foo", .container, .main⟩).domListeners = [] ∧
    (busSubscribers ((((((Binder.init true [5]).onW ⟨"a", 1, "foo", .container, .main⟩).onW
        ⟨"b", 2, "foo", .container, .main⟩).offW ⟨"a", 1, "foo", .container, .main⟩).offW ⟨"b", 2, "foo", .container, .main⟩).buses .container) "foo").length = 0 ∧
    (Binder.init true []).removeEventListenerOnTargetWhenIsUseless .wrapper "bar" =
      Binder.init true [] :=
  ⟨(binder_relay_teardown .container "foo" "a" "b" 1 2 .main .main [5] (by decide)).1,
    (binder_relay_teardown .container "foo" "a" "b" 1 2 .main .main [5] (by decide)).2.1,
    (binder_relay_teardown .container "foo" "a" "b" 1 2 .main .main [5] (by decide)).2.2.1,
    (binder_relay_teardown .container "foo" "a" "b" 1 2 .main .main [5] (by decide)).2.2.2.1,
    (binder_relay_teardown .container "foo" "a" "b" 1 2 .main .main [5] (by decide)).2.2.2.2.1,
    (binder_relay_teardown .container "foo" "a" "b" 1 2 .main .main [5] (by decide)).2.2.2.2.2.1,
    (binder_relay_teardown .container "foo" "a" "b" 1 2 .main .main [5] (by decide)).2.2.2.2.2.2.1,
    (binder_relay_teardown .container "foo" "a" "b" 1 2 .main .main [5] (by decide)).2.2.2.2.2.2.2.1,
    (binder_relay_teardown .container "foo" "a" "b" 1 2 .main .main [5] (by decide)).2.2.2.2.2.2.2.2
      (Binder.init true []) .wrapper "bar" (by decide)⟩

/-! ### C4 — pending queue and flush -/

theorem addEventListenerOnTarget_kernel_pending_frame (s : Binder) (nm id : String)
    (h : s.kernelPresent = true) :
    (s.addEventListenerOnTarget .kernel nm id).pendingEventsInfo = s.pendingEventsInfo ∧
      (s.addEventListenerOnTarget .kernel nm id).kernelPresent = true := by
  simp [Binder.addEventListenerOnTarget, Binder.isEventNeedToBeHandled, h,
    Binder.pushBookkeeping, Binder.addPendingEvent]
  split <;> simp [h]

theorem foldl_addEventListenerOnTarget_kernel_frame (l : List (String × String)) :
    ∀ s : Binder, s.kernelPresent = true →
      (List.foldl (fun st p => st.addEventListenerOnTarget .kernel p.1 p.2) s l).pendingEventsInfo
          = s.pendingEventsInfo ∧
        (List.foldl (fun st p => st.addEventListenerOnTarget .kernel p.1 p.2) s l).kernelPresent
          = true := by
  induction l with
  | nil => intro s h; exact ⟨rfl, h⟩
  | cons p ps ih =>
    intro s h
    obtain ⟨h1, h2⟩ := addEventListenerOnTarget_kernel_pending_frame s p.1 p.2 h
    obtain ⟨h3, h4⟩ := ih (s.addEventListenerOnTarget .kernel p.1 p.2) h2
    exact ⟨h1 ▸ h3, h4⟩

/-- C4: subscribing twice to a kernel-target event while no media engine is
attached attaches no native listener and enqueues `(name, id)` each time, in
arrival order; after the media engine appears, `applyPendingEvents(kernel)`
empties the queue and replays the entries (in reverse arrival order, as a
stack-based drain) as fresh `_addEventListenerOnTarget` calls, after which
exactly one native listener and one Bound Relay Entry exist for the queued
name (the two Bus subscribers registered at `on` time are untouched);
`applyPendingEvents` on an empty queue changes nothing, and with a media
engine attached it always leaves the kernel queue completely drained. -/
theorem binder_pending_flush (nm i1 i2 : String) (f1 f2 : Nat) (st1 st2 : eventStage) :
    (((Binder.init false []).onW ⟨i1, f1, nm, .kernel, st1⟩).onW
      ⟨i2, f2, nm, .kernel, st2⟩).kernelListeners = [] ∧
    (((Binder.init false []).onW ⟨i1, f1, nm, .kernel, st1⟩).onW
      ⟨i2, f2, nm, .kernel, st2⟩).pendingEventsInfo .kernel = [(nm, i1), (nm, i2)] ∧
    ({ ((Binder.init false []).onW ⟨i1, f1, nm, .kernel, st1⟩).onW
      ⟨i2, f2, nm, .kernel, st2⟩ with kernelPresent := true }.applyPendingEvents
      .kernel).pendingEventsInfo .kernel = [] ∧
    ({ ((Binder.init false []).onW ⟨i1, f1, nm, .kernel, st1⟩).onW
      ⟨i2, f2, nm, .kernel, st2⟩ with kernelPresent := true }.applyPendingEvents
      .kernel).kernelListeners = [(nm, 0)] ∧
    relayCount ({ ((Binder.init false []).onW ⟨i1, f1, nm, .kernel, st1⟩).onW
      ⟨i2, f2, nm, .kernel, st2⟩ with kernelPresent := true }.applyPendingEvents
      .kernel) .kernel nm = 1 ∧
    (busSubscribers (({ ((Binder.init false []).onW ⟨i1, f1, nm, .kernel, st1⟩).onW
      ⟨i2, f2, nm, .kernel, st2⟩ with kernelPresent := true }.applyPendingEvents
      .kernel).buses .kernel) nm).length = 2 ∧
    (∀ (s : Binder) (tk : binderTarget), s.pendingEventsInfo tk = [] →
      s.applyPendingEvents tk = s) ∧
    (∀ s : Binder, s.kernelPresent = true →
      (s.applyPendingEvents .kernel).pendingEventsInfo .kernel = []) := by
  refine ⟨?_, ?_, ?_, ?_, ?_, ?_, ?_, ?_⟩
  case refine_7 =>
    intro s tk hp
    have h2 : updateFn s.pendingEventsInfo tk [] = s.pendingEventsInfo := by
      funext tx
      by_cases hx : tx = tk
      · subst hx; simp [updateFn, hp]
      · simp [updateFn, hx]
    simp [Binder.applyPendingEvents, hp, h2]
  case refine_8 =>
    intro s hk
    simp only [Binder.applyPendingEvents]
    rw [(foldl_addEventListenerOnTarget_kernel_frame (s.pendingEventsInfo .kernel).reverse ({ s with pendingEventsInfo := updateFn s.pendingEventsInfo .kernel [] }) hk).1]
    simp [updateFn]
  all_goals
    simp [Binder.onW, Binder.applyPendingEvents, Binder.addEventListenerOnTarget,
      Binder.init, Binder.isEventNeedToBeHandled, Binder.pushBookkeeping,
      Binder.addPendingEvent, relayCount, updateFn, busOn, busSubscribers]

/-- Witness for C4 at name `"timeupdate"`, ids `"i1"`/`"i2"`; the two general
conjuncts are applied at a fresh Binder with a media engine present, where the
pending queue is empty. -/
theorem binder_pending_flush_witness :
    (((Binder.init false []).onW ⟨"i1", 1, "timeupdate", .kernel, .main⟩).onW
      ⟨"i2", 2, "timeupdate", .kernel, .main⟩).kernelListeners = [] ∧
    (((Binder.init false []).onW ⟨"i1", 1, "timeupdate", .kernel, .main⟩).onW
      ⟨"i2", 2, "timeupdate", .kernel, .main⟩).pendingEventsInfo .kernel = [("timeupdate", "i1"), ("timeupdate", "i2")] ∧
    ({ ((Binder.init false []).onW ⟨"i1", 1, "timeupdate", .kernel, .main⟩).onW
      ⟨"i2", 2, "timeupdate", .kernel, .main⟩ with kernelPresent := true }.applyPendingEvents .kernel).pendingEventsInfo .kernel = [] ∧
    ({ ((Binder.init false []).onW ⟨"i1", 1, "timeupdate", .kernel, .main⟩).onW
      ⟨"i2", 2, "timeupdate", .kernel, .main⟩ with kernelPresent := true }.applyPendingEvents .kernel).kernelListeners = [("timeupdate", 0)] ∧
    relayCount ({ ((Binder.init false []).onW ⟨"i1", 1, "timeupdate", .kernel, .main⟩).onW
      ⟨"i2", 2, "timeupdate", .kernel, .main⟩ with kernelPresent := true }.applyPendingEvents .kernel) .kernel "timeupdate" = 1 ∧
    (busSubscribers (({ ((Binder.init false []).onW ⟨"i1", 1, "timeupdate", .kernel, .main⟩).onW
      ⟨"i2", 2, "timeupdate", .kernel, .main⟩ with kernelPresent := true }.applyPendingEvents .kernel).buses .kernel) "timeupdate").length = 2 ∧
    (Binder.init true [3]).applyPendingEvents .kernel = Binder.init true [3] ∧
    ((Binder.init true [3]).applyPendingEvents .kernel).pendingEventsInfo .kernel = [] :=
  ⟨(binder_pending_flush "timeupdate" "i1" "i2" 1 2 .main .main).1,
    (binder_pending_flush "timeupdate" "i1" "i2" 1 2 .main .main).2.1,
    (binder_pending_flush "timeupdate" "i1" "i2" 1 2 .main .main).2.2.1,
    (binder_pending_flush "timeupdate" "i1" "i2" 1 2 .main .main).2.2.2.1,
    (binder_pending_flush "timeupdate" "i1" "i2" 1 2 .main .main).2.2.2.2.1,
    (binder_pending_flush "timeupdate" "i1" "i2" 1 2 .main .main).2.2.2.2.2.1,
    (binder_pending_flush "timeupdate" "i1" "i2" 1 2 .main .main).2.2.2.2.2.2.1 (Binder.init true [3]) .kernel rfl,
    (binder_pending_flush "timeupdate" "i1" "i2" 1 2 .main .main).2.2.2.2.2.2.2 (Binder.init true [3]) rfl⟩

/-! ### C7 — pointer-containment transitions -/

/-- C7: the fused relay emits a synthetic leave (flipping the boolean to false)
only when the boolean is true, the native event is a leave and the destination
element is outside the composite surface, and a synthetic enter (flipping the
boolean to true) only when the boolean is false, the native event is an enter
and the event's origin element is inside the surface; in particular a leave
whose destination is still inside the surface, or an enter while the boolean
is already true, neither toggles the boolean nor emits. Consequently the
sequence enter(parent), enter(child extended node), leave(parent→child),
leave(child→outside) produces exactly one synthetic enter and one synthetic
leave. -/
theorem tracker_containment_transitions :
    (∀ (surface : List Nat) (st : Bool) (e : MouseEvent),
      (e.evType = .mouseleave → isNodeInsideVideo surface (mouseEventDest e) = true →
        listenOnMouseMoveHandler surface st e = (st, 0)) ∧
      (e.evType = .mouseenter → st = true →
        listenOnMouseMoveHandler surface st e = (st, 0)) ∧
      ((listenOnMouseMoveHandler surface st e).2 ≠ 0 → e.evType = .mouseleave →
        st = true ∧ isNodeInsideVideo surface (mouseEventDest e) = false ∧
          (listenOnMouseMoveHandler surface st e).1 = false) ∧
      ((listenOnMouseMoveHandler surface st e).2 ≠ 0 → e.evType = .mouseenter →
        st = false ∧ isNodeInsideVideo surface (some e.currentTarget) = true ∧
          (listenOnMouseMoveHandler surface st e).1 = true)) ∧
    (∀ (surface : List Nat) (p c o : Nat), p ∈ surface → c ∈ surface → o ∉ surface →
      trackerRun surface false
        [⟨.mouseenter, p, none, none⟩, ⟨.mouseenter, c, none, some p⟩,
         ⟨.mouseleave, p, some c, none⟩, ⟨.mouseleave, c, some o, none⟩] =
        (false, 1, 1)) := by
  constructor
  · intro surface st e
    refine ⟨?_, ?_, ?_, ?_⟩
    · intro ht hin
      simp [listenOnMouseMoveHandler, ht, hin]
    · intro ht hst
      cases e with
      | mk ty ct toE rel => subst hst; simp at ht; subst ht
                            simp [listenOnMouseMoveHandler]
    · intro hk ht
      unfold listenOnMouseMoveHandler at hk
      split at hk
      · next hcnd =>
        simp only [Bool.and_eq_true, beq_iff_eq, Bool.not_eq_true'] at hcnd
        obtain ⟨⟨h1, _⟩, h3⟩ := hcnd
        refine ⟨h1, h3, ?_⟩
        simp [listenOnMouseMoveHandler, h1, ht, h3]
      · split at hk
        · next hcnd =>
          simp only [Bool.and_eq_true, beq_iff_eq] at hcnd
          rw [hcnd.1.2] at ht
          cases ht
        · simp at hk
    · intro hk ht
      unfold listenOnMouseMoveHandler at hk
      split at hk
      · next hcnd =>
        simp only [Bool.and_eq_true, beq_iff_eq, Bool.not_eq_true'] at hcnd
        rw [hcnd.1.2] at ht
        cases ht
      · split at hk
        · next hcnd =>
          simp only [Bool.and_eq_true, beq_iff_eq, Bool.not_eq_true'] at hcnd
          obtain ⟨⟨h1, h2⟩, h3⟩ := hcnd
          refine ⟨h1, h3, ?_⟩
          simp [listenOnMouseMoveHandler, h1, ht, h2, h3]
        · simp at hk
  · intro surface p c o hp hc ho
    simp [trackerRun, listenOnMouseMoveHandler, mouseEventDest, isNodeInsideVideo,
      hp, hc, ho]

/-- Witness for C7: a leave from the primary node whose destination is an
extended node still inside the surface neither toggles nor emits; and the
four-event scenario over surface `[0, 1]` (parent 0, child 1, outside 2)
yields exactly one synthetic enter and one synthetic leave. -/
theorem tracker_containment_transitions_witness :
    listenOnMouseMoveHandler [0, 1] true ⟨.mouseleave, 0, some 1, none⟩ = (true, 0) ∧
      trackerRun [0, 1] false
        [⟨.mouseenter, 0, none, none⟩, ⟨.mouseenter, 1, none, some 0⟩,
         ⟨.mouseleave, 0, some 1, none⟩, ⟨.mouseleave, 1, some 2, none⟩] =
        (false, 1, 1) :=
  ⟨(tracker_containment_transitions.1 [0, 1] true ⟨.mouseleave, 0, some 1, none⟩).1
      rfl (by decide),
    tracker_containment_transitions.2 [0, 1] 0 1 2 (by decide) (by decide) (by decide)⟩

/-! ### C1 — destroy: detaches everywhere, but clears only kernel bookkeeping -/

/-- C1 (code bug, evaluated at the failing input): with one bound `container`
relay and one bound `video-dom` relay (one extended node), `destroy()` does
detach every native listener (both attachment lists end empty), but the loop
body clears `bindedEventInfo.kernel` / `bindedEventNames.kernel` on every
iteration instead of the bookkeeping of the target being processed, so the
`container` and `video-dom` Bound Relay Entries and Bound Names Sets survive
`destroy()` non-empty, contradicting the claim that after `destroy()` every
target kind's bookkeeping is empty. -/
theorem binder_destroy_keeps_nonkernel_bookkeeping :
    (((Binder.init true [7]).onW ⟨"a", 10, "foo", .container, .main⟩).onW
        ⟨"b", 11, "click", .videoDom, .main⟩).destroy.domListeners = [] ∧
      (((Binder.init true [7]).onW ⟨"a", 10, "foo", .container, .main⟩).onW
        ⟨"b", 11, "click", .videoDom, .main⟩).destroy.kernelListeners = [] ∧
      (((Binder.init true [7]).onW ⟨"a", 10, "foo", .container, .main⟩).onW
        ⟨"b", 11, "click", .videoDom, .main⟩).destroy.bindedEventInfo .kernel = [] ∧
      (((Binder.init true [7]).onW ⟨"a", 10, "foo", .container, .main⟩).onW
        ⟨"b", 11, "click", .videoDom, .main⟩).destroy.bindedEventNames .kernel = [] ∧
      (((Binder.init true [7]).onW ⟨"a", 10, "foo", .container, .main⟩).onW
        ⟨"b", 11, "click", .videoDom, .main⟩).destroy.bindedEventInfo .container =
        [("foo", some 0)] ∧
      (((Binder.init true [7]).onW ⟨"a", 10, "foo", .container, .main⟩).onW
        ⟨"b", 11, "click", .videoDom, .main⟩).destroy.bindedEventNames .container =
        ["foo"] ∧
      (((Binder.init true [7]).onW ⟨"a", 10, "foo", .container, .main⟩).onW
        ⟨"b", 11, "click", .videoDom, .main⟩).destroy.bindedEventInfo .videoDom =
        [("click", some 1)] ∧
      (((Binder.init true [7]).onW ⟨"a", 10, "foo", .container, .main⟩).onW
        ⟨"b", 11, "click", .videoDom, .main⟩).destroy.bindedEventNames .videoDom =
        ["click"] := by
  decide
